import Mathlib

/-!
Verification of the CloudScript move-cooldown validator.

Shallow embedding of `processPlayerMove` from `src/basic_sample.js`
(lines 172-218) together with the external PlayFab store it talks to,
and proofs of the specified properties.

The validator reads the player's stored `last_move_timestamp`, rejects the
move when fewer than 15 seconds have elapsed since it, and otherwise
increments the `movesMade` statistic and persists a fresh timestamp and the
serialized move payload.
-/

namespace CloudScript

/-- Model of the ECMAScript runtime's view of a stored `last_move_timestamp`
user-data value. `parseable ms` stands for a string that `Date.parse` reads
as `ms` milliseconds since the epoch; `malformed s` stands for a string on
which `Date.parse` returns `NaN`. -/
inductive TsValue where
  | parseable (ms : Int)
  | malformed (s : String)
deriving DecidableEq, Repr

/-- Model of `Date.parse` applied to a stored timestamp value.
`none` stands for the `NaN` result on an unparseable string. -/
def jsDateParse : TsValue → Option Int
  | .parseable ms => some ms
  | .malformed _ => none

/-- Model of `new Date(t).toUTCString()` (line 212): the rendered format
carries whole seconds only (no milliseconds field), so the value a later
`Date.parse` recovers is `t` rounded down to a whole second. -/
def jsToUTCString (t : Int) : TsValue :=
  .parseable (1000 * (t / 1000))

/-- One entry of the PlayFab `Statistics` array returned by
`GetPlayerStatistics` (lines 194-196). -/
structure Stat where
  StatisticName : String
  Value : Int
deriving DecidableEq, Repr

/-- The per-player state held by the external PlayFab store: the two
user-internal-data keys the validator touches and the statistics array. -/
structure ServerState where
  lastMoveTimestamp : Option TsValue
  lastMove : Option String
  statistics : List Stat
deriving DecidableEq, Repr

/-- Upsert semantics of the external store's `UpdatePlayerStatistics`:
the named statistic is set to `value`, created if absent. -/
def setStat (stats : List Stat) (name : String) (value : Int) : List Stat :=
  if stats.any (fun s => s.StatisticName = name) then
    stats.map (fun s => if s.StatisticName = name then { s with Value := value } else s)
  else
    stats ++ [⟨name, value⟩]

/-- Environment of one invocation: the wall clock read by `Date.now()`
(line 173), and whether each of the four external PlayFab calls fails.
A failing `server.*` call throws, aborting the script. -/
structure Env where
  now : Int
  getDataFails : Bool
  getStatsFails : Bool
  setStatsFails : Bool
  setDataFails : Bool
deriving DecidableEq, Repr

/-- An environment at time `now` in which every external call succeeds. -/
def Env.ok (now : Int) : Env :=
  ⟨now, false, false, false, false⟩

/-- Trace entry: one external call issued by the validator (a failing call
is still issued, and still appears in the trace). -/
inductive ExtCall where
  | getUserInternalData (playFabId : String) (keys : List String)
  | getPlayerStatistics (playFabId : String)
  | updatePlayerStatistics (playFabId : String) (statName : String) (value : Int)
  | updateUserInternalData (playFabId : String) (lastMoveTimestamp : TsValue) (lastMove : String)
deriving DecidableEq, Repr

deriving instance DecidableEq for Except

/-- Outcome of one invocation: the returned value (`.error` models an
exception thrown by a failed external call), the external store's state
after the invocation, and the trace of external calls issued. -/
structure RunResult where
  result : Except String Bool
  state : ServerState
  calls : List ExtCall
deriving DecidableEq, Repr

/-- Lines 194-217 of `processPlayerMove`: the accept path, reached when no
prior timestamp blocks the move. Reads the statistics, takes the last value
whose `StatisticName` is `""` (the loop on lines 198-200 compares against
the empty string, not `"movesMade"`) defaulting to 0, increments it, writes
it back as `movesMade`, then writes `last_move_timestamp` (as a UTC string
of `now`) and `last_move` (the serialized payload, opaque to the validator)
and returns `true`. -/
def acceptMove (env : Env) (st : ServerState) (currentPlayerId : String)
    (playerMove : String) (calls : List ExtCall) : RunResult :=
  let calls := calls ++ [ExtCall.getPlayerStatistics currentPlayerId]
  if env.getStatsFails then
    { result := .error "GetPlayerStatistics", state := st, calls := calls }
  else
    let playerStats := st.statistics
    let movesMade : Int :=
      playerStats.foldl (fun acc s => if s.StatisticName = "" then s.Value else acc) 0
    let movesMade := movesMade + 1
    let calls := calls ++ [ExtCall.updatePlayerStatistics currentPlayerId "movesMade" movesMade]
    if env.setStatsFails then
      { result := .error "UpdatePlayerStatistics", state := st, calls := calls }
    else
      let st := { st with statistics := setStat st.statistics "movesMade" movesMade }
      let newTs := jsToUTCString env.now
      let calls := calls ++ [ExtCall.updateUserInternalData currentPlayerId newTs playerMove]
      if env.setDataFails then
        { result := .error "UpdateUserInternalData", state := st, calls := calls }
      else
        { result := .ok true
          state := { st with lastMoveTimestamp := some newTs, lastMove := some playerMove }
          calls := calls }

/-- Lines 172-218 of `processPlayerMove`. `playerMove` is the already
serialized move payload (never interpreted by the validator);
`currentPlayerId` is the ambient authenticated player id. Reads
`last_move_timestamp`; if the key is present, parses it and computes
`(now - lastMoveTime) / 1000` seconds, returning `false` when that is
strictly below the 15-second cooldown. An unparseable stored value makes
the elapsed time `NaN`, and `NaN < 15` is `false`, so no rejection occurs.
Otherwise the accept path runs. -/
def processPlayerMove (env : Env) (st : ServerState) (currentPlayerId : String)
    (playerMove : String) : RunResult :=
  let now := env.now
  let playerMoveCooldownInSeconds : ℚ := 15
  let calls := [ExtCall.getUserInternalData currentPlayerId ["last_move_timestamp"]]
  if env.getDataFails then
    { result := .error "GetUserInternalData", state := st, calls := calls }
  else
    match st.lastMoveTimestamp with
    | some lastMoveTimestampSetting =>
        match jsDateParse lastMoveTimestampSetting with
        | some lastMoveTime =>
            let timeSinceLastMoveInSeconds : ℚ := ((now : ℚ) - (lastMoveTime : ℚ)) / 1000
            if timeSinceLastMoveInSeconds < playerMoveCooldownInSeconds then
              { result := .ok false, state := st, calls := calls }
            else
              acceptMove env st currentPlayerId playerMove calls
        | none =>
            acceptMove env st currentPlayerId playerMove calls
    | none =>
        acceptMove env st currentPlayerId playerMove calls

/-- The trace of a single invocation always begins with this read. -/
def readCall (pid : String) : List ExtCall :=
  [ExtCall.getUserInternalData pid ["last_move_timestamp"]]

/-- Derived form of the cooldown guard on lines 183-191: `true` exactly when
a stored, parseable timestamp is strictly less than 15000 ms old. -/
def cooldownRejects (now : Int) (ts : Option TsValue) : Bool :=
  match ts with
  | some v =>
      match jsDateParse v with
      | some t => decide (now - t < 15000)
      | none => false
  | none => false

/-- The rational elapsed-seconds comparison of lines 185-188 agrees with the
integer millisecond comparison. -/
theorem cooldown_cond_iff (now t : Int) :
    (((now : ℚ) - (t : ℚ)) / 1000 < 15) ↔ now - t < 15000 := by
  rw [div_lt_iff₀ (by norm_num : (0 : ℚ) < 1000)]
  constructor
  · intro h
    have h2 : ((now - t : Int) : ℚ) < ((15000 : Int) : ℚ) := by push_cast; linarith
    exact_mod_cast h2
  · intro h
    have h2 : ((now - t : Int) : ℚ) < ((15000 : Int) : ℚ) := by exact_mod_cast h
    push_cast at h2
    linarith

/-- One-step unfolding of `processPlayerMove` through the derived guard. -/
theorem processPlayerMove_eq (env : Env) (st : ServerState) (pid mv : String) :
    processPlayerMove env st pid mv =
      if env.getDataFails then
        { result := .error "GetUserInternalData", state := st, calls := readCall pid }
      else if cooldownRejects env.now st.lastMoveTimestamp then
        { result := .ok false, state := st, calls := readCall pid }
      else
        acceptMove env st pid mv (readCall pid) := by
  unfold processPlayerMove cooldownRejects readCall
  cases hg : env.getDataFails
  · cases hts : st.lastMoveTimestamp with
    | none => simp
    | some v =>
      cases v with
      | parseable t => simp [jsDateParse, cooldown_cond_iff]
      | malformed s => simp [jsDateParse]
  · simp

/-- The returned value of the accept path depends only on the failure flags:
it is the error of the first failing write-side call, else `true`. -/
theorem acceptMove_result (env : Env) (st : ServerState) (pid mv : String)
    (calls : List ExtCall) :
    (acceptMove env st pid mv calls).result =
      if env.getStatsFails then Except.error "GetPlayerStatistics"
      else if env.setStatsFails then Except.error "UpdatePlayerStatistics"
      else if env.setDataFails then Except.error "UpdateUserInternalData"
      else Except.ok true := by
  cases h1 : env.getStatsFails <;> cases h2 : env.setStatsFails <;>
    cases h3 : env.setDataFails <;> simp [acceptMove, h1, h2, h3]

/-- The accept path never returns `false`. -/
theorem acceptMove_result_ne_false (env : Env) (st : ServerState) (pid mv : String)
    (calls : List ExtCall) :
    (acceptMove env st pid mv calls).result ≠ .ok false := by
  rw [acceptMove_result]
  cases h1 : env.getStatsFails <;> cases h2 : env.setStatsFails <;>
    cases h3 : env.setDataFails <;> simp

/-- When all three accept-path calls succeed, the full outcome of the accept
path. -/
theorem acceptMove_success (env : Env) (st : ServerState) (pid mv : String)
    (calls : List ExtCall) (h1 : env.getStatsFails = false)
    (h2 : env.setStatsFails = false) (h3 : env.setDataFails = false) :
    acceptMove env st pid mv calls =
      { result := .ok true
        state :=
          { lastMoveTimestamp := some (jsToUTCString env.now)
            lastMove := some mv
            statistics := setStat st.statistics "movesMade"
              ((st.statistics.foldl
                (fun acc s => if s.StatisticName = "" then s.Value else acc) 0) + 1) }
        calls := calls ++
          [ExtCall.getPlayerStatistics pid,
           ExtCall.updatePlayerStatistics pid "movesMade"
             ((st.statistics.foldl
               (fun acc s => if s.StatisticName = "" then s.Value else acc) 0) + 1),
           ExtCall.updateUserInternalData pid (jsToUTCString env.now) mv] } := by
  simp [acceptMove, h1, h2, h3]

/-- A failed statistics write leaves the store untouched. -/
theorem acceptMove_statsWrite_fails (env : Env) (st : ServerState) (pid mv : String)
    (calls : List ExtCall) (h : env.setStatsFails = true) :
    (acceptMove env st pid mv calls).state = st := by
  cases h1 : env.getStatsFails <;> simp [acceptMove, h1, h]

/-- If the accept path returned `true`, the stored timestamp afterwards is
the UTC rendering of `now`. -/
theorem acceptMove_ok_state (env : Env) (st : ServerState) (pid mv : String)
    (calls : List ExtCall)
    (hacc : (acceptMove env st pid mv calls).result = .ok true) :
    (acceptMove env st pid mv calls).state.lastMoveTimestamp
      = some (jsToUTCString env.now) := by
  cases h1 : env.getStatsFails <;> cases h2 : env.setStatsFails <;>
    cases h3 : env.setDataFails <;> simp [acceptMove, h1, h2, h3] at hacc ⊢

/-- The head of the accept path's call trace is the head it was given. -/
theorem acceptMove_calls_head (env : Env) (st : ServerState) (pid mv : String)
    (c : ExtCall) (cs : List ExtCall) :
    (acceptMove env st pid mv (c :: cs)).calls.head? = some c := by
  cases h1 : env.getStatsFails <;> cases h2 : env.setStatsFails <;>
    cases h3 : env.setDataFails <;> simp [acceptMove, h1, h2, h3]

/-- C1. The code does not persist prior `movesMade` + 1: the read loop on
line 199 compares `StatisticName` against `""` instead of `"movesMade"`, so
the prior value is never found. Evaluated at the failing input (prior
`movesMade` = 5, no prior timestamp): the accepted move persists
`movesMade` = 1, where the claim requires 6. -/
theorem movesMade_ignores_prior_value :
    (processPlayerMove (Env.ok 0)
        { lastMoveTimestamp := none, lastMove := none,
          statistics := [⟨"movesMade", 5⟩] } "P" "m").result = .ok true ∧
      (processPlayerMove (Env.ok 0)
          { lastMoveTimestamp := none, lastMove := none,
            statistics := [⟨"movesMade", 5⟩] } "P" "m").state.statistics
        = [⟨"movesMade", 1⟩] := by
  decide

/-- C2, counterexample. When the user-data write fails after the statistics
write succeeded, the statistic alone is committed: the run errors out (does
not return `true`), yet the final store has `movesMade` = 1 while the
timestamp keys are unchanged — a partial commit of only the statistic,
contradicting the claim that no such partial commit occurs. -/
theorem statistic_committed_on_data_write_failure :
    (processPlayerMove ⟨0, false, false, false, true⟩
        { lastMoveTimestamp := none, lastMove := none, statistics := [] } "P" "m").result
      = .error "UpdateUserInternalData" ∧
    (processPlayerMove ⟨0, false, false, false, true⟩
        { lastMoveTimestamp := none, lastMove := none, statistics := [] } "P" "m").state
      = { lastMoveTimestamp := none, lastMove := none,
          statistics := [⟨"movesMade", 1⟩] } := by
  decide

/-- C2, amended. If either write fails, the remaining steps are aborted and
the failure is surfaced: the call never returns `true`; moreover a failure
of the statistics write (the first write) commits nothing. Only a user-data
write failing after a successful statistics write leaves the statistic
committed alone. -/
theorem write_failure_never_returns_true (env : Env) (st : ServerState)
    (pid mv : String)
    (h : env.setStatsFails = true ∨ env.setDataFails = true) :
    (processPlayerMove env st pid mv).result ≠ .ok true ∧
      (env.setStatsFails = true → (processPlayerMove env st pid mv).state = st) := by
  rw [processPlayerMove_eq]
  cases hg : env.getDataFails
  · cases hc : cooldownRejects env.now st.lastMoveTimestamp
    · simp only [Bool.false_eq_true, if_false]
      constructor
      · rw [acceptMove_result]
        rcases h with h | h
        · cases h1 : env.getStatsFails <;> simp [h, h1]
        · cases h1 : env.getStatsFails <;> cases h2 : env.setStatsFails <;>
            simp [h, h1, h2]
      · intro hss
        exact acceptMove_statsWrite_fails env st pid mv (readCall pid) hss
    · simp
  · simp

/-- C2, witness for `write_failure_never_returns_true` at a concrete input
with a failing statistics write. -/
theorem write_failure_never_returns_true_witness :
    (processPlayerMove ⟨0, false, false, true, false⟩
        { lastMoveTimestamp := none, lastMove := none, statistics := [] } "P" "m").result
      ≠ .ok true ∧
    ((⟨0, false, false, true, false⟩ : Env).setStatsFails = true →
      (processPlayerMove ⟨0, false, false, true, false⟩
          { lastMoveTimestamp := none, lastMove := none, statistics := [] } "P" "m").state
        = { lastMoveTimestamp := none, lastMove := none, statistics := [] }) :=
  write_failure_never_returns_true ⟨0, false, false, true, false⟩
    { lastMoveTimestamp := none, lastMove := none, statistics := [] } "P" "m"
    (Or.inl rfl)

/-- C3, counterexample. A call with an empty `playerId` is not rejected
before any external call: the very first action is the external read of
`last_move_timestamp`, and the call then succeeds with `true`, so no
malformed-input rejection exists. -/
theorem empty_playerId_not_rejected :
    (processPlayerMove (Env.ok 0)
        { lastMoveTimestamp := none, lastMove := none, statistics := [] } "" "m").result
      = .ok true ∧
    (processPlayerMove (Env.ok 0)
        { lastMoveTimestamp := none, lastMove := none, statistics := [] } "" "m").calls.head?
      = some (.getUserInternalData "" ["last_move_timestamp"]) := by
  decide

/-- C3, amended. `processPlayerMove` performs no local input validation at
all: for every input, including an empty `playerId` and an arbitrary move
payload, the first action taken is the remote read of
`last_move_timestamp`; no rejection ever precedes it. -/
theorem remote_read_always_first (env : Env) (st : ServerState) (pid mv : String) :
    (processPlayerMove env st pid mv).calls.head?
      = some (.getUserInternalData pid ["last_move_timestamp"]) := by
  rw [processPlayerMove_eq]
  cases hg : env.getDataFails
  · cases hc : cooldownRejects env.now st.lastMoveTimestamp
    · simpa using acceptMove_calls_head env st pid mv _ []
    · simp [readCall]
  · simp [readCall]

/-- C4. With a stored, parseable prior timestamp `t`, the call returns
`false` exactly when `now - t` is strictly below 15000 ms (15 s): rejection
happens only for a strictly smaller elapsed time, so an elapsed time of
exactly 15 s (and anything larger) is never cooldown-rejected. -/
theorem cooldown_rejects_iff_elapsed_lt_15s (env : Env) (st : ServerState)
    (pid mv : String) (t : Int)
    (hts : st.lastMoveTimestamp = some (.parseable t))
    (hg : env.getDataFails = false) :
    ((processPlayerMove env st pid mv).result = .ok false ↔ env.now - t < 15000) ∧
      (15000 ≤ env.now - t → env.getStatsFails = false →
        env.setStatsFails = false → env.setDataFails = false →
        (processPlayerMove env st pid mv).result = .ok true) := by
  constructor
  · rw [processPlayerMove_eq]
    simp only [hg, Bool.false_eq_true, if_false, hts, cooldownRejects, jsDateParse]
    by_cases hc : env.now - t < 15000
    · simp [hc]
    · simp [hc, acceptMove_result_ne_false env st pid mv (readCall pid)]
  · intro hge h1 h2 h3
    rw [processPlayerMove_eq]
    have hc : ¬ (env.now - t < 15000) := by omega
    simp [hg, hts, cooldownRejects, jsDateParse, hc, acceptMove_result, h1, h2, h3]

/-- C4, witness for `cooldown_rejects_iff_elapsed_lt_15s` at the exact
15-second boundary, where the right-hand side is false, so the move is not
rejected. -/
theorem cooldown_rejects_iff_elapsed_lt_15s_witness :
    ((processPlayerMove (Env.ok 15000)
        { lastMoveTimestamp := some (.parseable 0), lastMove := none,
          statistics := [] } "P" "m").result = .ok false
      ↔ (Env.ok 15000).now - 0 < 15000) ∧
      (15000 ≤ (Env.ok 15000).now - 0 → (Env.ok 15000).getStatsFails = false →
        (Env.ok 15000).setStatsFails = false → (Env.ok 15000).setDataFails = false →
        (processPlayerMove (Env.ok 15000)
          { lastMoveTimestamp := some (.parseable 0), lastMove := none,
            statistics := [] } "P" "m").result = .ok true) :=
  cooldown_rejects_iff_elapsed_lt_15s (Env.ok 15000)
    { lastMoveTimestamp := some (.parseable 0), lastMove := none, statistics := [] }
    "P" "m" 0 rfl rfl

/-- C5. A cooldown-rejected call (stored parseable timestamp less than
15000 ms old) returns `false`, leaves the entire store unchanged
(statistic, `last_move_timestamp` and `last_move` alike), and issues no
external write: its whole call trace is the single initial read. -/
theorem cooldown_rejection_frame (env : Env) (st : ServerState)
    (pid mv : String) (t : Int)
    (hts : st.lastMoveTimestamp = some (.parseable t))
    (hg : env.getDataFails = false)
    (hc : env.now - t < 15000) :
    processPlayerMove env st pid mv =
      { result := .ok false, state := st,
        calls := [ExtCall.getUserInternalData pid ["last_move_timestamp"]] } := by
  rw [processPlayerMove_eq]
  simp [hg, hts, cooldownRejects, jsDateParse, hc, readCall]

/-- C5, witness for `cooldown_rejection_frame` at elapsed = 10 s. -/
theorem cooldown_rejection_frame_witness :
    processPlayerMove (Env.ok 10000)
        { lastMoveTimestamp := some (.parseable 0), lastMove := none,
          statistics := [⟨"movesMade", 3⟩] } "P" "m"
      = { result := .ok false,
          state := { lastMoveTimestamp := some (.parseable 0), lastMove := none,
                     statistics := [⟨"movesMade", 3⟩] },
          calls := [ExtCall.getUserInternalData "P" ["last_move_timestamp"]] } :=
  cooldown_rejection_frame (Env.ok 10000)
    { lastMoveTimestamp := some (.parseable 0), lastMove := none,
      statistics := [⟨"movesMade", 3⟩] }
    "P" "m" 0 rfl rfl (by decide)

/-- C6. The returned value is independent of the move payload: two runs in
the same environment and store that differ solely in the payload return the
same value (in particular the same accept/reject boolean). -/
theorem decision_independent_of_payload (env : Env) (st : ServerState)
    (pid mv1 mv2 : String) :
    (processPlayerMove env st pid mv1).result
      = (processPlayerMove env st pid mv2).result := by
  rw [processPlayerMove_eq, processPlayerMove_eq]
  cases hg : env.getDataFails
  · cases hc : cooldownRejects env.now st.lastMoveTimestamp
    · simp only [Bool.false_eq_true, if_false]
      rw [acceptMove_result, acceptMove_result]
    · simp
  · simp

/-- C7. A stored `last_move_timestamp` that `Date.parse` cannot read
(`NaN`) is treated as no prior move: `NaN < 15` is false, so the cooldown
never rejects, and with the external calls succeeding the move is accepted
with `true`. -/
theorem malformed_timestamp_fails_open (env : Env) (st : ServerState)
    (pid mv s : String)
    (hts : st.lastMoveTimestamp = some (.malformed s))
    (hg : env.getDataFails = false) (h1 : env.getStatsFails = false)
    (h2 : env.setStatsFails = false) (h3 : env.setDataFails = false) :
    (processPlayerMove env st pid mv).result = .ok true := by
  rw [processPlayerMove_eq]
  simp [hg, hts, cooldownRejects, jsDateParse, acceptMove_result, h1, h2, h3]

/-- C7, witness for `malformed_timestamp_fails_open` on the unparseable
stored value `"yesterday"`. -/
theorem malformed_timestamp_fails_open_witness :
    (processPlayerMove (Env.ok 0)
        { lastMoveTimestamp := some (.malformed "yesterday"), lastMove := none,
          statistics := [] } "P" "m").result = .ok true :=
  malformed_timestamp_fails_open (Env.ok 0)
    { lastMoveTimestamp := some (.malformed "yesterday"), lastMove := none,
      statistics := [] }
    "P" "m" "yesterday" rfl rfl rfl rfl rfl

/-- C8, counterexample. First move of a player with no stored timestamp at
`now` = 999 ms: the move is accepted and returns `true`, but the persisted
`last_move_timestamp` parses back to 0, not to `now` = 999 — the UTC string
rendering dropped the milliseconds, so `lastMoveTimestamp = now` fails. -/
theorem first_move_timestamp_truncated :
    (processPlayerMove (Env.ok 999)
        { lastMoveTimestamp := none, lastMove := none, statistics := [] } "P" "m").result
      = .ok true ∧
    (processPlayerMove (Env.ok 999)
        { lastMoveTimestamp := none, lastMove := none, statistics := [] } "P" "m").state.lastMoveTimestamp
      = some (.parseable 0) ∧
    some (TsValue.parseable 0) ≠ some (TsValue.parseable 999) := by
  decide

/-- C8, amended. A player with no stored `last_move_timestamp` has their
first move accepted: the call returns `true` and persists
`last_move_timestamp` as the UTC-string rendering of `now`, which parses
back to `now` rounded down to a whole second (equal to `now` itself exactly
when `now` is a whole second). -/
theorem first_move_accepted (env : Env) (st : ServerState) (pid mv : String)
    (hts : st.lastMoveTimestamp = none)
    (hg : env.getDataFails = false) (h1 : env.getStatsFails = false)
    (h2 : env.setStatsFails = false) (h3 : env.setDataFails = false) :
    (processPlayerMove env st pid mv).result = .ok true ∧
      (processPlayerMove env st pid mv).state.lastMoveTimestamp
        = some (jsToUTCString env.now) ∧
      jsDateParse (jsToUTCString env.now) = some (env.now - env.now % 1000) := by
  rw [processPlayerMove_eq]
  simp only [hg, Bool.false_eq_true, if_false, hts, cooldownRejects]
  rw [acceptMove_success env st pid mv (readCall pid) h1 h2 h3]
  refine ⟨rfl, rfl, ?_⟩
  simp only [jsToUTCString, jsDateParse, Option.some.injEq]
  omega

/-- C8, witness for `first_move_accepted` at `now` = 0. -/
theorem first_move_accepted_witness :
    (processPlayerMove (Env.ok 0)
        { lastMoveTimestamp := none, lastMove := none, statistics := [] } "P" "m").result
      = .ok true ∧
    (processPlayerMove (Env.ok 0)
        { lastMoveTimestamp := none, lastMove := none, statistics := [] } "P" "m").state.lastMoveTimestamp
      = some (jsToUTCString 0) ∧
    jsDateParse (jsToUTCString 0) = some (0 - 0 % 1000) :=
  first_move_accepted (Env.ok 0)
    { lastMoveTimestamp := none, lastMove := none, statistics := [] }
    "P" "m" rfl rfl rfl rfl rfl

/-- C9. Monotonicity: if a move is accepted (returns `true`) against a
stored, parseable prior timestamp `t`, the newly persisted timestamp is a
parseable value at least `t` (acceptance forces `now ≥ t + 15000`, and
rounding `now` down to a whole second loses at most 999 ms). -/
theorem lastMoveTimestamp_monotone (env : Env) (st : ServerState)
    (pid mv : String) (t : Int)
    (hts : st.lastMoveTimestamp = some (.parseable t))
    (hacc : (processPlayerMove env st pid mv).result = .ok true) :
    ∃ t2, (processPlayerMove env st pid mv).state.lastMoveTimestamp
        = some (.parseable t2) ∧ t ≤ t2 := by
  rw [processPlayerMove_eq] at hacc ⊢
  cases hg : env.getDataFails
  · rw [hg] at hacc
    simp only [Bool.false_eq_true, if_false] at hacc ⊢
    cases hc : cooldownRejects env.now st.lastMoveTimestamp
    · rw [hc] at hacc
      simp only [Bool.false_eq_true, if_false] at hacc ⊢
      refine ⟨1000 * (env.now / 1000), ?_, ?_⟩
      · rw [acceptMove_ok_state env st pid mv (readCall pid) hacc]
        rfl
      · have hcool : ¬ (env.now - t < 15000) := by
          intro hlt
          rw [hts] at hc
          simp [cooldownRejects, jsDateParse, hlt] at hc
        omega
    · rw [hc] at hacc
      simp at hacc
  · rw [hg] at hacc
    simp at hacc

/-- C9, witness for `lastMoveTimestamp_monotone` with prior timestamp 0 and
`now` = 20000. -/
theorem lastMoveTimestamp_monotone_witness :
    ∃ t2, (processPlayerMove (Env.ok 20000)
        { lastMoveTimestamp := some (.parseable 0), lastMove := none,
          statistics := [] } "P" "m").state.lastMoveTimestamp
        = some (.parseable t2) ∧ (0 : Int) ≤ t2 :=
  lastMoveTimestamp_monotone (Env.ok 20000)
    { lastMoveTimestamp := some (.parseable 0), lastMove := none, statistics := [] }
    "P" "m" 0 rfl (by rw [processPlayerMove_eq]; decide)

/-- C10. The persisted timestamp round-trips with a loss of up to one
second: parsing the UTC rendering of `t` yields `t - t % 1000`, which lies
within 999 ms below `t`; the elapsed time the next call computes is
therefore the real elapsed time plus `t1 % 1000` (at most 999 ms more);
concretely, a first move at `now` = 999 and a second at `now` = 15000 —
only 14001 ms of real separation — are both accepted. -/
theorem utc_roundtrip_truncation_overshoot :
    (∀ t : Int, jsDateParse (jsToUTCString t) = some (t - t % 1000) ∧
      0 ≤ t % 1000 ∧ t % 1000 ≤ 999) ∧
    (∀ t1 t2 : Int, t2 - (t1 - t1 % 1000) = (t2 - t1) + t1 % 1000) ∧
    ((processPlayerMove (Env.ok 999)
        { lastMoveTimestamp := none, lastMove := none, statistics := [] } "P" "m").result
      = .ok true ∧
     (processPlayerMove (Env.ok 15000)
        (processPlayerMove (Env.ok 999)
          { lastMoveTimestamp := none, lastMove := none, statistics := [] } "P" "m").state
        "P" "m").result = .ok true ∧
     (15000 : Int) - 999 < 15000) := by
  refine ⟨?_, ?_, ?_, ?_, by decide⟩
  · intro t
    refine ⟨?_, by omega, by omega⟩
    simp only [jsToUTCString, jsDateParse, Option.some.injEq]
    omega
  · intro t1 t2
    ring
  · decide
  · have hstate : (processPlayerMove (Env.ok 999)
        { lastMoveTimestamp := none, lastMove := none, statistics := [] } "P" "m").state
      = { lastMoveTimestamp := some (.parseable 0), lastMove := some "m",
          statistics := [⟨"movesMade", 1⟩] } := by decide
    rw [hstate, processPlayerMove_eq]
    decide

end CloudScript
